import Mathlib

/-!
Verification development for the gemini-concurrent-generation service
(`src/app.py`, `src/main_functions.py`).

The Python sources are shallowly embedded as executable Lean definitions:
  * strings are `List Char`;
  * Python values flowing in `TaskResult.data` are `JsonVal`, where
    `JsonVal.null` plays the role of Python `None` (Python does not
    distinguish JSON `null` from an absent value: both are `None`);
  * the remote generative-model call is an oracle parameter (a function from
    the attempt index, resp. the task index, to the upstream outcome), since
    the network is outside the program;
  * `asyncio` concurrency is modelled by an explicit event interleaving for
    the semaphore claims, and by per-task functional results for the batch
    claims (task results are independent of interleaving order because each
    task only reads its own inputs);
  * wall-clock fields (`response_time`, the backoff sleep durations) are real
    time and are not modelled.
-/

/-! ### JSON values and a strict JSON parser

Models CPython `json.loads` (the default `JSONDecoder`): leading/trailing
JSON whitespace allowed, full input must be consumed, strict string rules
(no raw control characters), strict number grammar, `NaN`/`Infinity`/
`-Infinity` accepted.  Numbers are kept as their lexeme so no floating point
enters the model; the claims never compare distinct-lexeme numbers. -/

inductive JsonVal : Type where
  | null : JsonVal
  | bool : Bool → JsonVal
  | num : List Char → JsonVal
  | str : List Char → JsonVal
  | arr : List JsonVal → JsonVal
  | obj : List (List Char × JsonVal) → JsonVal

/-- JSON structural whitespace (RFC 8259 / CPython `json`). -/
def jsWS (c : Char) : Bool :=
  c = ' ' || c = '\t' || c = '\n' || c = '\r'

def skipWS (s : List Char) : List Char := s.dropWhile jsWS

def isJsonDigit (c : Char) : Bool := '0' ≤ c && c ≤ '9'

def hexVal (c : Char) : Option Nat :=
  let n := c.toNat
  if 48 ≤ n && n ≤ 57 then some (n - 48)
  else if 97 ≤ n && n ≤ 102 then some (n - 97 + 10)
  else if 65 ≤ n && n ≤ 70 then some (n - 65 + 10)
  else none

/-- Parse the body of a JSON string after the opening quote.  Returns the
decoded characters and the remaining input.  Control characters below 0x20
are rejected (CPython default `strict=True`). -/
def parseStringBody : Nat → List Char → List Char → Option (List Char × List Char)
  | 0, _, _ => none
  | _, [], _ => none
  | fuel + 1, c :: rest, acc =>
    if c = '"' then some (acc.reverse, rest)
    else if c = '\\' then
      match rest with
      | [] => none
      | e :: rest2 =>
        if e = '"' then parseStringBody fuel rest2 ('"' :: acc)
        else if e = '\\' then parseStringBody fuel rest2 ('\\' :: acc)
        else if e = '/' then parseStringBody fuel rest2 ('/' :: acc)
        else if e = 'b' then parseStringBody fuel rest2 (Char.ofNat 8 :: acc)
        else if e = 'f' then parseStringBody fuel rest2 (Char.ofNat 12 :: acc)
        else if e = 'n' then parseStringBody fuel rest2 ('\n' :: acc)
        else if e = 'r' then parseStringBody fuel rest2 ('\r' :: acc)
        else if e = 't' then parseStringBody fuel rest2 ('\t' :: acc)
        else if e = 'u' then
          match rest2 with
          | h1 :: h2 :: h3 :: h4 :: rest3 =>
            match hexVal h1, hexVal h2, hexVal h3, hexVal h4 with
            | some a, some b, some c', some d =>
              let code := 16 * (16 * (16 * a + b) + c') + d
              parseStringBody fuel rest3 (Char.ofNat code :: acc)
            | _, _, _, _ => none
          | _ => none
        else none
    else if c.toNat < 32 then none
    else parseStringBody fuel rest (c :: acc)

/-- Parse the digits of a JSON number after an optional sign: integer part,
optional fraction, optional exponent.  Returns the lexeme and the rest. -/
def parseNumberTail (s : List Char) : Option (List Char × List Char) :=
  match s with
  | [] => none
  | c :: t =>
    if c = '0' then
      some ([c], t)
    else if isJsonDigit c then
      some (c :: t.takeWhile isJsonDigit, t.dropWhile isJsonDigit)
    else none

def parseFrac (s : List Char) : List Char × List Char :=
  match s with
  | '.' :: t =>
    let ds := t.takeWhile isJsonDigit
    if ds.isEmpty then ([], s) else ('.' :: ds, t.dropWhile isJsonDigit)
  | _ => ([], s)

def parseExp (s : List Char) : Option (List Char × List Char) :=
  match s with
  | c :: t =>
    if c = 'e' || c = 'E' then
      let (sign, t2) :=
        match t with
        | s' :: t' => if s' = '+' || s' = '-' then ([s'], t') else (([] : List Char), t)
        | [] => (([] : List Char), t)
      let ds := t2.takeWhile isJsonDigit
      if ds.isEmpty then none
      else some (c :: (sign ++ ds), t2.dropWhile isJsonDigit)
    else some ([], s)
  | [] => some ([], s)

/-- Validity of a fraction part: a bare `.` with no digit is a parse error
in CPython `json`, not a shorter number. -/
def fracOk (s : List Char) : Bool :=
  match s with
  | '.' :: t => !(t.takeWhile isJsonDigit).isEmpty
  | _ => true

def parseNumber (s : List Char) : Option (List Char × List Char) :=
  let (sign, s1) :=
    match s with
    | '-' :: t => ((['-'] : List Char), t)
    | _ => (([] : List Char), s)
  match parseNumberTail s1 with
  | none => none
  | some (ip, r1) =>
    if fracOk r1 then
      let (fp, r2) := parseFrac r1
      match parseExp r2 with
      | none => none
      | some (ep, r3) => some (sign ++ ip ++ fp ++ ep, r3)
    else none

mutual

/-- Parse one JSON value (whitespace already relevant: leading whitespace is
skipped here, as CPython does between all tokens). -/
def parseVal : Nat → List Char → Option (JsonVal × List Char)
  | 0, _ => none
  | fuel + 1, s =>
    let s := skipWS s
    match s with
    | [] => none
    | c :: rest =>
      if c = '"' then
        match parseStringBody (fuel + 1) rest [] with
        | some (str, r) => some (.str str, r)
        | none => none
      else if c = Char.ofNat 123 then
        parseObjTail fuel rest true
      else if c = Char.ofNat 91 then
        parseArrTail fuel rest true
      else if ['n', 'u', 'l', 'l'].isPrefixOf s then
        some (.null, s.drop 4)
      else if ['t', 'r', 'u', 'e'].isPrefixOf s then
        some (.bool true, s.drop 4)
      else if ['f', 'a', 'l', 's', 'e'].isPrefixOf s then
        some (.bool false, s.drop 5)
      else if ['N', 'a', 'N'].isPrefixOf s then
        some (.num ['N', 'a', 'N'], s.drop 3)
      else if ['I', 'n', 'f', 'i', 'n', 'i', 't', 'y'].isPrefixOf s then
        some (.num ['I', 'n', 'f', 'i', 'n', 'i', 't', 'y'], s.drop 8)
      else if ['-', 'I', 'n', 'f', 'i', 'n', 'i', 't', 'y'].isPrefixOf s then
        some (.num ['-', 'I', 'n', 'f', 'i', 'n', 'i', 't', 'y'], s.drop 9)
      else
        match parseNumber s with
        | some (lx, r) => some (.num lx, r)
        | none => none

/-- Parse the members of an object after the opening brace (`first = true`)
or after a comma (`first = false`). -/
def parseObjTail : Nat → List Char → Bool → Option (JsonVal × List Char)
  | 0, _, _ => none
  | fuel + 1, s, first =>
    let s := skipWS s
    match s with
    | [] => none
    | c :: rest =>
      if first && c = Char.ofNat 125 then some (.obj [], rest)
      else if c = '"' then
        match parseStringBody (fuel + 1) rest [] with
        | none => none
        | some (key, r1) =>
          match skipWS r1 with
          | ':' :: r2 =>
            match parseVal fuel r2 with
            | none => none
            | some (v, r3) =>
              match skipWS r3 with
              | ',' :: r4 =>
                match parseObjTail fuel r4 false with
                | some (.obj kvs, r5) => some (.obj ((key, v) :: kvs), r5)
                | _ => none
              | d :: r4 =>
                if d = Char.ofNat 125 then some (.obj [(key, v)], r4) else none
              | [] => none
          | _ => none
      else none

/-- Parse the items of an array after the opening bracket (`first = true`)
or after a comma (`first = false`). -/
def parseArrTail : Nat → List Char → Bool → Option (JsonVal × List Char)
  | 0, _, _ => none
  | fuel + 1, s, first =>
    let s' := skipWS s
    if first && s'.headD 'x' = Char.ofNat 93 then some (.arr [], s'.drop 1)
    else
      match parseVal fuel s with
      | none => none
      | some (v, r1) =>
        match skipWS r1 with
        | ',' :: r2 =>
          match parseArrTail fuel r2 false with
          | some (.arr vs, r3) => some (.arr (v :: vs), r3)
          | _ => none
        | d :: r2 =>
          if d = Char.ofNat 93 then some (.arr [v], r2) else none
        | [] => none

end

/-- `json.loads`: parse one value and require the whole input consumed. -/
def json_loads (s : List Char) : Option JsonVal :=
  match parseVal (s.length + 1) s with
  | some (v, rest) => if (skipWS rest).isEmpty then some v else none
  | none => none

/-! ### Python `str.strip()` and the fence-stripping of
`gemini_structured_output_with_schema` (`src/main_functions.py` 109-117). -/

/-- Characters stripped by Python `str.strip()` in the ASCII range
(`str.isspace()`): space, 0x09-0x0D, 0x1C-0x1F. -/
def pySpace (c : Char) : Bool :=
  c.toNat = 32 || (9 ≤ c.toNat && c.toNat ≤ 13) || (28 ≤ c.toNat && c.toNat ≤ 31)

/-- Python `s.strip()`: remove leading and trailing whitespace. -/
def pyStrip (s : List Char) : List Char :=
  (((s.dropWhile pySpace).reverse.dropWhile pySpace)).reverse

/-- The backtick character. -/
def bt : Char := Char.ofNat 96

/-- Lines 109-117 of `src/main_functions.py`:
`response_text = response.text.strip()`, then if it starts with a
triple-backtick fence tagged `json` drop the 7 tag characters, strip, and if
it now ends with a closing fence drop it and strip; else if it starts with a
bare triple-backtick fence do the same dropping 3 characters; otherwise the
stripped text is used as is. -/
def strip_code_fence (s : List Char) : List Char :=
  let t := pyStrip s
  if [bt, bt, bt, 'j', 's', 'o', 'n'].isPrefixOf t then
    let t1 := pyStrip (t.drop 7)
    if [bt, bt, bt].isSuffixOf t1 then pyStrip (t1.take (t1.length - 3)) else t1
  else if [bt, bt, bt].isPrefixOf t then
    let t1 := pyStrip (t.drop 3)
    if [bt, bt, bt].isSuffixOf t1 then pyStrip (t1.take (t1.length - 3)) else t1
  else t

example : json_loads "\x7b\x22a\x22:1\x7d".toList =
    some (.obj [(['a'], .num ['1'])]) := rfl

example : strip_code_fence ("```json\n\x7b\x22a\x22:1\x7d\n```".toList) =
    "\x7b\x22a\x22:1\x7d".toList := by decide

example : json_loads "null".toList = some .null := rfl

example : json_loads "[1, true, \x22x\x22]".toList =
    some (.arr [.num ['1'], .bool true, .str ['x']]) := rfl

example : json_loads "python\n\x7b\x22a\x22:1\x7d".toList = none := rfl

/-! ### Python truthiness and service messages -/

/-- Python truthiness of an optional string: `None` and `""` are falsy. -/
def pyTruthy (s : Option (List Char)) : Bool :=
  match s with
  | none => false
  | some l => !l.isEmpty

/-- The single-quote character, used in service messages. -/
def sqc : Char := Char.ofNat 39

def msg_api_key_required : List Char := "API key is required.".toList

def msg_chat_key_required : List Char :=
  "API key is required for Gemini API calls.".toList

def msg_admin_no_server_key : List Char :=
  "Admin authenticated, but the service is not configured with a GEMINI_API_KEY.".toList

def msg_auth_failed : List Char :=
  ("Authentication failed. Provide ".toList ++ [sqc] ++ "Admin-API-Key".toList ++ [sqc] ++
   " in headers or ".toList ++ [sqc] ++ "credentials.gemini_api_key".toList ++ [sqc] ++
   " in payload.".toList)

def msg_admin_required : List Char :=
  "Admin API Key required for semaphore management".toList

def msg_sem_not_found (sid : List Char) : List Char :=
  "External semaphore ".toList ++ [sqc] ++ sid ++ [sqc] ++ " not found".toList

def msg_sem_registered (sid : List Char) : List Char :=
  "Global semaphore ".toList ++ [sqc] ++ sid ++ [sqc] ++ " registered successfully".toList

def msg_success (model : List Char) : List Char :=
  "Successfully generated structured output using ".toList ++ model ++ ".".toList

/-- Failure message of the JSON-parsing branch.  The Python message appends
the decoder's error detail after a colon; that free-text detail is not
modelled, the fixed template prefix is. -/
def msg_parse_failed (n : Int) : List Char :=
  "JSON parsing failed after ".toList ++ (toString n).toList ++ " attempts".toList

def msg_empty_response (n : Int) : List Char :=
  "Empty response from Gemini API after ".toList ++ (toString n).toList ++ " attempts.".toList

def msg_api_error (n : Int) (e : List Char) : List Char :=
  "Gemini API error after ".toList ++ (toString n).toList ++ " attempts: ".toList ++ e

def msg_all_failed (n : Int) : List Char :=
  "All ".toList ++ (toString n).toList ++ " attempts failed.".toList

/-! ### The retry executor
(`gemini_structured_output_with_schema`, `src/main_functions.py` 44-162)

The remote call of one attempt is an oracle value: it either raises an
exception (the `except` branch of the loop body) or produces a response
body; a falsy response, a response without a `text` attribute and an empty
`text` all reach the same `else` branch of the code and are modelled as an
empty body.  The prompt inputs (`user_content`, `system_prompt`,
`json_schema`) only feed the upstream call and are absorbed into the
oracle.  The backoff sleep is wall-clock time and is not modelled. -/

inductive UpstreamResp : Type where
  | raises : List Char → UpstreamResp
  | text : List Char → UpstreamResp

/-- Result dictionary of `gemini_structured_output_with_schema`.  The
`response_time` entry is wall-clock and not modelled.  `data` is
`JsonVal.null` exactly where the Python dictionary holds `None`. -/
structure SOResult where
  success : Bool
  data : JsonVal
  message : List Char
  retries_used : Int

/-- The `for attempt in range(max_retries)` loop (lines 88-162), run on the
remaining attempt indices.  Also counts the upstream calls issued.  Falling
off the list is the final `return` after the loop (lines 158-162). -/
def so_loop (oracle : Nat → UpstreamResp) (model : List Char) (max_retries : Int) :
    List Nat → SOResult × Nat
  | [] =>
    ({ success := false, data := .null, message := msg_all_failed max_retries,
       retries_used := max_retries }, 0)
  | i :: rest =>
    match oracle i with
    | .raises e =>
      if (i : Int) = max_retries - 1 then
        ({ success := false, data := .null, message := msg_api_error max_retries e,
           retries_used := (i : Int) + 1 }, 1)
      else
        let (r, c) := so_loop oracle model max_retries rest
        (r, c + 1)
    | .text body =>
      if body.isEmpty then
        if (i : Int) = max_retries - 1 then
          ({ success := false, data := .null, message := msg_empty_response max_retries,
             retries_used := (i : Int) + 1 }, 1)
        else
          let (r, c) := so_loop oracle model max_retries rest
          (r, c + 1)
      else
        match json_loads (strip_code_fence body) with
        | some d =>
          ({ success := true, data := d, message := msg_success model,
             retries_used := (i : Int) }, 1)
        | none =>
          if (i : Int) = max_retries - 1 then
            ({ success := false, data := .null, message := msg_parse_failed max_retries,
               retries_used := (i : Int) + 1 }, 1)
          else
            let (r, c) := so_loop oracle model max_retries rest
            (r, c + 1)

/-- `gemini_structured_output_with_schema` (lines 44-162): absent or empty
API key short-circuits; otherwise the retry loop runs over
`range(max_retries)` (empty when `max_retries ≤ 0`, as in Python).
Returns the result dictionary and the number of upstream calls issued. -/
def gemini_structured_output_with_schema (oracle : Nat → UpstreamResp) (model : List Char)
    (api_key : Option (List Char)) (max_retries : Int) : SOResult × Nat :=
  if !(pyTruthy api_key) then
    ({ success := false, data := .null, message := msg_api_key_required,
       retries_used := 0 }, 0)
  else
    so_loop oracle model max_retries (List.range max_retries.toNat)

/-- `gemini_cinematic_story_design` (`src/main_functions.py` 166-364):
delegates to `gemini_structured_output_with_schema` with a fixed story
schema; the schema only feeds the upstream prompt and is absorbed into the
oracle. -/
def gemini_cinematic_story_design (oracle : Nat → UpstreamResp) (model : List Char)
    (api_key : Option (List Char)) (max_retries : Int) : SOResult × Nat :=
  gemini_structured_output_with_schema oracle model api_key max_retries

/-! ### The chat call (`gemini_chat_simple`, `src/main_functions.py` 13-42) -/

inductive ChatOutcome : Type where
  | ok : List Char → ChatOutcome
  | exn : List Char → ChatOutcome

/-- `gemini_chat_simple`: raises `ValueError` on a falsy key, otherwise
returns the upstream text or re-raises the upstream exception. -/
def gemini_chat_simple (outcome : ChatOutcome) (api_key : Option (List Char)) :
    Except (List Char) (List Char) :=
  if !(pyTruthy api_key) then .error msg_chat_key_required
  else
    match outcome with
    | .ok t => .ok t
    | .exn e => .error e

/-! ### Authentication (`get_api_key_from_request`, `src/app.py` 149-175) -/

/-- The two server-configured secrets (`src/app.py` 21, 24); `os.getenv`
yields `None` when unset, and Python truthiness also treats `""` as
unconfigured. -/
structure AuthConfig where
  ADMIN_API_KEY : Option (List Char)
  SERVER_GEMINI_API_KEY : Option (List Char)

structure GeminiCredentials where
  gemini_api_key : Option (List Char)

/-- `get_api_key_from_request`: Tier 1 admin header, Tier 2 payload key,
otherwise a 401 failure.  Returns `(api_key, error_message, status_code)`
exactly like the source. -/
def get_api_key_from_request (cfg : AuthConfig) (admin_key_from_header : Option (List Char))
    (request_credentials : Option GeminiCredentials) :
    Option (List Char) × Option (List Char) × Option Nat :=
  if pyTruthy cfg.ADMIN_API_KEY && admin_key_from_header == cfg.ADMIN_API_KEY then
    if pyTruthy cfg.SERVER_GEMINI_API_KEY then
      (cfg.SERVER_GEMINI_API_KEY, none, none)
    else
      (none, some msg_admin_no_server_key, some 500)
  else
    match request_credentials with
    | some rc =>
      if pyTruthy rc.gemini_api_key then (rc.gemini_api_key, none, none)
      else (none, some msg_auth_failed, some 401)
    | none => (none, some msg_auth_failed, some 401)

/-! ### Semaphore registry (`src/app.py` 39-84, 251-264)

A registered `asyncio.Semaphore` is identified by its capacity; the
registry is the association list of the process-local dictionary
`_global_semaphores` (its lock serialises the map mutation, so the
registry operations are the sequential functions below applied once per
admitted critical section). -/

abbrev Registry := List (List Char × Int)

/-- `register_global_semaphore` (lines 64-74): return the existing gate
unchanged if the id is taken, else store a fresh gate with the requested
limit.  Returns the new registry and the capacity of the stored gate. -/
def register_global_semaphore (reg : Registry) (semaphore_id : List Char) (limit : Int) :
    Registry × Int :=
  match List.lookup semaphore_id reg with
  | some existing => (reg, existing)
  | none => (reg ++ [(semaphore_id, limit)], limit)

/-- `get_global_semaphore` (lines 76-79). -/
def get_global_semaphore (reg : Registry) (semaphore_id : List Char) : Option Int :=
  List.lookup semaphore_id reg

/-- `list_global_semaphores` (lines 81-84). -/
def list_global_semaphores (reg : Registry) : List (List Char) :=
  reg.map Prod.fst

structure SemaphoreRequest where
  semaphore_id : List Char
  limit : Int

structure SemaphoreCreateResponse where
  success : Bool
  semaphore_id : List Char
  limit : Int
  message : List Char

structure HttpError where
  status : Nat
  detail : List Char

/-- `create_global_semaphore` endpoint (`src/app.py` 251-264): admin gate,
then idempotent registration; the response always echoes the requested
limit. -/
def create_global_semaphore (cfg : AuthConfig) (admin_key_from_header : Option (List Char))
    (reg : Registry) (request : SemaphoreRequest) :
    Except HttpError (SemaphoreCreateResponse × Registry) :=
  if !(pyTruthy cfg.ADMIN_API_KEY && admin_key_from_header == cfg.ADMIN_API_KEY) then
    .error { status := 403, detail := msg_admin_required }
  else
    let (reg', _) := register_global_semaphore reg request.semaphore_id request.limit
    .ok ({ success := true, semaphore_id := request.semaphore_id, limit := request.limit,
           message := msg_sem_registered request.semaphore_id }, reg')

/-! ### Admission-gate event model
(`process_with_semaphore`, `src/app.py` 177-190, over `asyncio.Semaphore`)

An `asyncio.Semaphore(cap)` admits a waiter exactly when fewer than `cap`
holders are admitted.  Concurrency is modelled as an arbitrary interleaving
of gate events; `gateRun` replays an interleaving and records the holder
count after every event, refusing impossible schedules (an acquire that
would exceed the capacity cannot be scheduled: that waiter stays
suspended). -/

inductive GateEv : Type where
  | acq : GateEv
  | call : GateEv
  | rel : GateEv
  deriving DecidableEq, Repr

/-- One scheduled event against the gate: `acq` only fires when a slot is
free, `rel` only when some task holds the gate. -/
def gateStep (cap : Nat) : Nat → GateEv → Option Nat
  | n, .acq => if n < cap then some (n + 1) else none
  | n, .rel => if 0 < n then some (n - 1) else none
  | n, .call => some n

/-- Replay an interleaving from holder count `n`, returning the holder
count after each event. -/
def gateRun (cap : Nat) : Nat → List GateEv → Option (List Nat)
  | _, [] => some []
  | n, e :: es =>
    match gateStep cap n e with
    | none => none
    | some n' => (gateRun cap n' es).map (fun l => n' :: l)

inductive Outcome (α : Type) : Type where
  | ok : α → Outcome α
  | exn : List Char → Outcome α

/-- `process_with_semaphore` (lines 177-190): `async with semaphore` wraps
the single handler call, so the task's gate events are acquire, the call,
then release — the `except` branch re-raises after the `async with` block
releases, so the trace is the same on the exception path. -/
def process_with_semaphore (h : Outcome α) : List GateEv × Outcome α :=
  match h with
  | .ok a => ([.acq, .call, .rel], .ok a)
  | .exn e => ([.acq, .call, .rel], .exn e)

/-! ### Batch endpoints (`src/app.py` 90-146, 266-509)

Each endpoint authenticates, short-circuits on an empty task list, resolves
the gate, fans the tasks out and partitions the results.  Each embedded
endpoint returns, besides the response, two instrumentation counters: the
number of upstream calls issued and the number of gate acquisitions
(`process_with_semaphore` acquires once around each task's single handler
call).  The per-task upstream behaviour is an oracle indexed by the task's
position in the submitted list. -/

/-- Order-preserving map with the position index, as produced by the
`asyncio.gather` comprehension (`src/app.py` 327): result `i` comes from
task `i`. -/
def mapIdxFrom {A B : Type} (f : Nat → A → B) : Nat → List A → List B
  | _, [] => []
  | i, a :: as => f i a :: mapIdxFrom f (i + 1) as

structure TaskItem where
  task_id : List Char
  prompt : List Char
  system_prompt : List Char
  model : List Char
  output_filename : Option (List Char)

structure StructuredTaskItem where
  task_id : List Char
  user_content : List Char
  system_prompt : List Char
  json_schema : JsonVal
  model : List Char
  output_filename : Option (List Char)

structure CinematicTaskItem where
  task_id : List Char
  user_content : List Char
  system_prompt : List Char
  model : List Char
  output_filename : Option (List Char)

/-- `TaskResult` (`src/app.py` 127-133); `data` holds the Python value
(`JsonVal.null` for `None`), `response_time` is wall-clock and unmodelled. -/
structure TaskResult where
  task_id : List Char
  success : Bool
  data : JsonVal
  output_filename : Option (List Char)
  error : Option (List Char)

structure BatchResponse where
  total_tasks : Nat
  successful_count : Nat
  failed_count : Nat
  successful_results : List TaskResult
  failed_results : List TaskResult
  external_semaphore_used : Bool
  semaphore_id : Option (List Char)

structure BatchChatRequest where
  tasks : List TaskItem
  external_semaphore_id : Option (List Char)
  credentials : Option GeminiCredentials

structure BatchStructuredRequest where
  tasks : List StructuredTaskItem
  external_semaphore_id : Option (List Char)
  credentials : Option GeminiCredentials

structure BatchCinematicRequest where
  tasks : List CinematicTaskItem
  external_semaphore_id : Option (List Char)
  credentials : Option GeminiCredentials

/-- The zero-totals response of the empty-task-list branch
(`src/app.py` 274-278). -/
def emptyBatchResponse : BatchResponse :=
  { total_tasks := 0, successful_count := 0, failed_count := 0,
    successful_results := [], failed_results := [],
    external_semaphore_used := false, semaphore_id := none }

/-- `process_task` of `chat_batch` (`src/app.py` 301-324): the handler call
either returns text (success) or raises (failure with the exception's
message). -/
def chat_process_task (api_key : Option (List Char)) (outcome : ChatOutcome)
    (task : TaskItem) : TaskResult :=
  match gemini_chat_simple outcome api_key with
  | .ok t =>
    { task_id := task.task_id, success := true, data := .str t,
      output_filename := task.output_filename, error := none }
  | .error e =>
    { task_id := task.task_id, success := false, data := .null,
      output_filename := task.output_filename, error := some e }

/-- `process_task` of `structured_output_batch` (`src/app.py` 381-407):
on a returned result dictionary, `success`/`data` are copied and `error` is
the dictionary's message exactly when the dictionary reports failure; the
`except` branch (an exception from the awaited call, e.g. from
`genai.configure`) is driven by the `exn` input. -/
def structured_process_task (api_key : Option (List Char)) (oracle : Nat → UpstreamResp)
    (exn : Option (List Char)) (task : StructuredTaskItem) : TaskResult × Nat :=
  match exn with
  | some e =>
    ({ task_id := task.task_id, success := false, data := .null,
       output_filename := task.output_filename, error := some e }, 0)
  | none =>
    let (r, calls) := gemini_structured_output_with_schema oracle task.model api_key 3
    ({ task_id := task.task_id, success := r.success, data := r.data,
       output_filename := task.output_filename,
       error := if r.success then none else some r.message }, calls)

/-- `process_task` of `cinematic_story_batch` (`src/app.py` 464-489). -/
def cinematic_process_task (api_key : Option (List Char)) (oracle : Nat → UpstreamResp)
    (exn : Option (List Char)) (task : CinematicTaskItem) : TaskResult × Nat :=
  match exn with
  | some e =>
    ({ task_id := task.task_id, success := false, data := .null,
       output_filename := task.output_filename, error := some e }, 0)
  | none =>
    let (r, calls) := gemini_cinematic_story_design oracle task.model api_key 3
    ({ task_id := task.task_id, success := r.success, data := r.data,
       output_filename := task.output_filename,
       error := if r.success then none else some r.message }, calls)

/-- Result aggregation shared by the three endpoints (`src/app.py` 327-344):
gather all task results, then partition by `success`. -/
def aggregate_results (task_results : List TaskResult) (ext : Bool)
    (sid : Option (List Char)) (total : Nat) : BatchResponse :=
  let successful_results := task_results.filter (fun r => r.success)
  let failed_results := task_results.filter (fun r => !r.success)
  { total_tasks := total, successful_count := successful_results.length,
    failed_count := failed_results.length,
    successful_results := successful_results, failed_results := failed_results,
    external_semaphore_used := ext, semaphore_id := sid }

/-- Gate selection shared by the three endpoints (`src/app.py` 280-295).
The guard is Python truthiness (`if request.external_semaphore_id:`), so a
missing id and the empty-string id both fall through to the global gate; a
non-empty requested id must be registered, otherwise 404. -/
def resolve_gate (reg : Registry) (ext_id : Option (List Char)) :
    Except HttpError (Bool × Option (List Char)) :=
  match ext_id with
  | none => .ok (false, none)
  | some sid =>
    if sid.isEmpty then .ok (false, none)
    else
      match get_global_semaphore reg sid with
      | some _ => .ok (true, some sid)
      | none => .error { status := 404, detail := msg_sem_not_found sid }

/-- `chat_batch` (`src/app.py` 266-344).  Returns the response, the number
of upstream calls issued and the number of gate acquisitions. -/
def chat_batch (cfg : AuthConfig) (reg : Registry) (admin_key_from_header : Option (List Char))
    (request : BatchChatRequest) (chatOracle : Nat → ChatOutcome) :
    Except HttpError (BatchResponse × Nat × Nat) :=
  let (api_key, error_msg, status_code) :=
    get_api_key_from_request cfg admin_key_from_header request.credentials
  match error_msg with
  | some m => .error { status := status_code.getD 500, detail := m }
  | none =>
    if request.tasks.isEmpty then
      .ok (emptyBatchResponse, 0, 0)
    else
      match resolve_gate reg request.external_semaphore_id with
      | .error e => .error e
      | .ok (ext, sid) =>
        let task_results :=
          mapIdxFrom (fun i t => chat_process_task api_key (chatOracle i) t) 0 request.tasks
        .ok (aggregate_results task_results ext sid request.tasks.length,
             (if pyTruthy api_key then request.tasks.length else 0),
             request.tasks.length)

/-- `structured_output_batch` (`src/app.py` 346-427). -/
def structured_output_batch (cfg : AuthConfig) (reg : Registry)
    (admin_key_from_header : Option (List Char)) (request : BatchStructuredRequest)
    (oracle : Nat → Nat → UpstreamResp) (exnOracle : Nat → Option (List Char)) :
    Except HttpError (BatchResponse × Nat × Nat) :=
  let (api_key, error_msg, status_code) :=
    get_api_key_from_request cfg admin_key_from_header request.credentials
  match error_msg with
  | some m => .error { status := status_code.getD 500, detail := m }
  | none =>
    if request.tasks.isEmpty then
      .ok (emptyBatchResponse, 0, 0)
    else
      match resolve_gate reg request.external_semaphore_id with
      | .error e => .error e
      | .ok (ext, sid) =>
        let pairs :=
          mapIdxFrom
            (fun i t => structured_process_task api_key (oracle i) (exnOracle i) t) 0
            request.tasks
        .ok (aggregate_results (pairs.map Prod.fst) ext sid request.tasks.length,
             (pairs.map Prod.snd).sum,
             request.tasks.length)

/-- `cinematic_story_batch` (`src/app.py` 429-509). -/
def cinematic_story_batch (cfg : AuthConfig) (reg : Registry)
    (admin_key_from_header : Option (List Char)) (request : BatchCinematicRequest)
    (oracle : Nat → Nat → UpstreamResp) (exnOracle : Nat → Option (List Char)) :
    Except HttpError (BatchResponse × Nat × Nat) :=
  let (api_key, error_msg, status_code) :=
    get_api_key_from_request cfg admin_key_from_header request.credentials
  match error_msg with
  | some m => .error { status := status_code.getD 500, detail := m }
  | none =>
    if request.tasks.isEmpty then
      .ok (emptyBatchResponse, 0, 0)
    else
      match resolve_gate reg request.external_semaphore_id with
      | .error e => .error e
      | .ok (ext, sid) =>
        let pairs :=
          mapIdxFrom
            (fun i t => cinematic_process_task api_key (oracle i) (exnOracle i) t) 0
            request.tasks
        .ok (aggregate_results (pairs.map Prod.fst) ext sid request.tasks.length,
             (pairs.map Prod.snd).sum,
             request.tasks.length)


/-- Classification used by the retry claims: an upstream outcome is
retryable when the loop body cannot produce a success from it — an
exception, an empty (or missing) body, or a body that fails strict JSON
parsing after fence-stripping. -/
def retryableResp (r : UpstreamResp) : Bool :=
  match r with
  | .raises _ => true
  | .text body => body.isEmpty || (json_loads (strip_code_fence body)).isNone

/-- The parsed value the loop body extracts from an upstream outcome, if
any. -/
def parsedResp (r : UpstreamResp) : Option JsonVal :=
  match r with
  | .raises _ => none
  | .text body => if body.isEmpty then none else json_loads (strip_code_fence body)

/-- Failure message produced by the final attempt, by the kind of its
outcome (`src/main_functions.py` 131-136, 140-145, 148-155). -/
def lastFailMsg (k : Int) (r : UpstreamResp) : List Char :=
  match r with
  | .raises e => msg_api_error k e
  | .text body => if body.isEmpty then msg_empty_response k else msg_parse_failed k

/-! ### Helper lemmas -/

theorem dropWhile_append_eq {α : Type} (f : α → Bool) (l₁ l₂ : List α) :
    (l₁ ++ l₂).dropWhile f =
      if (l₁.dropWhile f).isEmpty then l₂.dropWhile f else l₁.dropWhile f ++ l₂ := by
  induction l₁ with
  | nil => simp
  | cons a t ih =>
    by_cases h : f a
    · simpa [List.dropWhile_cons, h] using ih
    · simp [List.dropWhile_cons, h]

theorem dropWhile_eq_self_of_head {α : Type} (f : α → Bool) (l : List α)
    (h : ∀ c, l.head? = some c → f c = false) : l.dropWhile f = l := by
  cases l with
  | nil => rfl
  | cons a t => simp [List.dropWhile_cons, h a rfl]

theorem pyStrip_eq_self (l : List Char)
    (h1 : ∀ c, l.head? = some c → pySpace c = false)
    (h2 : ∀ c, l.getLast? = some c → pySpace c = false) : pyStrip l = l := by
  unfold pyStrip
  rw [dropWhile_eq_self_of_head pySpace l h1,
      dropWhile_eq_self_of_head pySpace l.reverse (by simpa [List.head?_reverse] using h2),
      List.reverse_reverse]

theorem pyStrip_nil_of_dropWhile_nil (l : List Char) (h : l.dropWhile pySpace = []) :
    pyStrip l = [] := by
  unfold pyStrip
  rw [h]
  rfl

/-! ### Claim C3: tiered credential resolution -/

/-- C3: credential resolution follows the tiered order with first match
winning.  A trusted header matching the configured trusted key returns the
server credential when one is configured, and fails with a 500
server-misconfiguration error (never falling through to the payload
credential) when none is; otherwise a non-empty payload credential is
returned verbatim; otherwise the call fails with a 401 unauthenticated
error.  The four cases are exhaustive, so no ambient-environment fallback
exists: the key returned is always the server credential or the payload
credential. -/
theorem get_api_key_from_request_tiers (cfg : AuthConfig) (hdr : Option (List Char))
    (creds : Option GeminiCredentials) :
    ((pyTruthy cfg.ADMIN_API_KEY && hdr == cfg.ADMIN_API_KEY) = true →
      (pyTruthy cfg.SERVER_GEMINI_API_KEY = true →
        get_api_key_from_request cfg hdr creds = (cfg.SERVER_GEMINI_API_KEY, none, none)) ∧
      (pyTruthy cfg.SERVER_GEMINI_API_KEY = false →
        get_api_key_from_request cfg hdr creds =
          (none, some msg_admin_no_server_key, some 500))) ∧
    ((pyTruthy cfg.ADMIN_API_KEY && hdr == cfg.ADMIN_API_KEY) = false →
      (∀ rc, creds = some rc → pyTruthy rc.gemini_api_key = true →
        get_api_key_from_request cfg hdr creds = (rc.gemini_api_key, none, none)) ∧
      ((∀ rc, creds = some rc → pyTruthy rc.gemini_api_key = false) →
        get_api_key_from_request cfg hdr creds = (none, some msg_auth_failed, some 401))) := by
  constructor
  · intro h1
    constructor
    · intro h2
      simp [get_api_key_from_request, h1, h2]
    · intro h2
      simp [get_api_key_from_request, h1, h2]
  · intro h1
    constructor
    · intro rc hrc h2
      subst hrc
      simp [get_api_key_from_request, h1, h2]
    · intro h2
      cases hc : creds with
      | none => simp [get_api_key_from_request, h1, hc]
      | some rc =>
        have := h2 rc hc
        simp [get_api_key_from_request, h1, hc, this]

/-- Witness for C3: each of the four tiers evaluated at a concrete input. -/
theorem get_api_key_from_request_tiers_witness :
    get_api_key_from_request ⟨some ['a'], some ['s']⟩ (some ['a']) (some ⟨some ['u']⟩) =
      (some ['s'], none, none) ∧
    get_api_key_from_request ⟨some ['a'], none⟩ (some ['a']) (some ⟨some ['u']⟩) =
      (none, some msg_admin_no_server_key, some 500) ∧
    get_api_key_from_request ⟨some ['a'], some ['s']⟩ (some ['z']) (some ⟨some ['u']⟩) =
      (some ['u'], none, none) ∧
    get_api_key_from_request ⟨some ['a'], some ['s']⟩ none none =
      (none, some msg_auth_failed, some 401) :=
  ⟨((get_api_key_from_request_tiers ⟨some ['a'], some ['s']⟩ (some ['a'])
      (some ⟨some ['u']⟩)).1 (by decide)).1 (by decide),
   ((get_api_key_from_request_tiers ⟨some ['a'], none⟩ (some ['a'])
      (some ⟨some ['u']⟩)).1 (by decide)).2 (by decide),
   ((get_api_key_from_request_tiers ⟨some ['a'], some ['s']⟩ (some ['z'])
      (some ⟨some ['u']⟩)).2 (by decide)).1 ⟨some ['u']⟩ rfl (by decide),
   ((get_api_key_from_request_tiers ⟨some ['a'], some ['s']⟩ none none).2
      (by decide)).2 (fun rc h => by cases h)⟩

/-! ### Claim C10: gate registration always reports success and echoes the
requested limit -/

/-- C10: a trusted-caller registration always answers success with the
requested limit echoed, even when a gate with that identifier already
existed; in that case the registry is returned unchanged and the
pre-existing gate (with its original capacity) is reused. -/
theorem create_global_semaphore_reports (cfg : AuthConfig) (hdr : Option (List Char))
    (reg : Registry) (request : SemaphoreRequest)
    (hadmin : (pyTruthy cfg.ADMIN_API_KEY && hdr == cfg.ADMIN_API_KEY) = true) :
    create_global_semaphore cfg hdr reg request =
      .ok ({ success := true, semaphore_id := request.semaphore_id, limit := request.limit,
             message := msg_sem_registered request.semaphore_id },
           (register_global_semaphore reg request.semaphore_id request.limit).1) ∧
    ∀ c, List.lookup request.semaphore_id reg = some c →
      register_global_semaphore reg request.semaphore_id request.limit = (reg, c) := by
  constructor
  · simp [create_global_semaphore, hadmin]
  · intro c hc
    simp [register_global_semaphore, hc]

/-- Witness for C10: registering id `x` with limit 9 while a gate of
capacity 5 is stored under `x` reports success with limit 9 and leaves the
registry unchanged. -/
theorem create_global_semaphore_reports_witness :
    create_global_semaphore ⟨some ['a'], none⟩ (some ['a']) [(['x'], 5)] ⟨['x'], 9⟩ =
      .ok ({ success := true, semaphore_id := ['x'], limit := 9,
             message := msg_sem_registered ['x'] }, [(['x'], 5)]) ∧
    register_global_semaphore [(['x'], 5)] ['x'] 9 = ([(['x'], 5)], 5) := by
  have h := create_global_semaphore_reports ⟨some ['a'], none⟩ (some ['a'])
    [(['x'], 5)] ⟨['x'], 9⟩ (by decide)
  have h2 := h.2 5 (by decide)
  refine ⟨?_, h2⟩
  rw [h.1, h2]

/-! ### Claim C7: nonpositive retry budget short-circuits -/

/-- C7: with a credential present and `max_retries ≤ 0`, the structured
retry executor returns an immediate exhausted failure without issuing any
upstream call (`range(max_retries)` is empty, so the loop body never runs
and the final return fires with zero upstream calls). -/
theorem retry_executor_short_circuit (oracle : Nat → UpstreamResp) (model : List Char)
    (api_key : Option (List Char)) (mr : Int)
    (hkey : pyTruthy api_key = true) (hmr : mr ≤ 0) :
    gemini_structured_output_with_schema oracle model api_key mr =
      ({ success := false, data := .null, message := msg_all_failed mr,
         retries_used := mr }, 0) := by
  unfold gemini_structured_output_with_schema
  rw [hkey]
  simp [Int.toNat_of_nonpos hmr, so_loop]

/-- Witness for C7 at `max_retries = 0` with an upstream stub that would
succeed if it were ever called. -/
theorem retry_executor_short_circuit_witness :
    pyTruthy (some ['k']) = true ∧ (0 : Int) ≤ 0 ∧
    gemini_structured_output_with_schema (fun _ => .text ['1']) ['m'] (some ['k']) 0 =
      ({ success := false, data := .null, message := msg_all_failed 0,
         retries_used := 0 }, 0) :=
  ⟨by decide, by decide,
   retry_executor_short_circuit (fun _ => .text ['1']) ['m'] (some ['k']) 0
     (by decide) (by decide)⟩

/-! ### Claim C2: the admission gate never exceeds its capacity -/

/-- C2: replaying any schedulable interleaving of gate events from an idle
gate keeps the holder count at or below the capacity after every event (an
acquire only fires when fewer than `cap` tasks hold the gate), and
`process_with_semaphore` produces, for both the normal and the exception
outcome of the handler, the trace acquire - call - release: the gate is
acquired before the task's single upstream call and released on every exit
path. -/
theorem gate_capacity_invariant (cap : Nat) :
    (∀ (n : Nat) (evs : List GateEv) (states : List Nat),
      n ≤ cap → gateRun cap n evs = some states → ∀ s ∈ states, s ≤ cap) ∧
    (∀ (h : Outcome Unit),
      process_with_semaphore h = ([GateEv.acq, GateEv.call, GateEv.rel], h)) := by
  constructor
  · intro n evs
    induction evs generalizing n with
    | nil =>
      intro states _ hrun
      simp [gateRun] at hrun
      subst hrun
      simp
    | cons e es ih =>
      intro states hn hrun
      cases e with
      | acq =>
        by_cases hcap : n < cap
        · simp [gateRun, gateStep, hcap] at hrun
          obtain ⟨l, hl, hst⟩ := hrun
          subst hst
          intro s hs
          rcases List.mem_cons.mp hs with h | h
          · omega
          · exact ih (n + 1) l (by omega) hl s h
        · simp [gateRun, gateStep, hcap] at hrun
      | rel =>
        by_cases hpos : 0 < n
        · simp [gateRun, gateStep, hpos] at hrun
          obtain ⟨l, hl, hst⟩ := hrun
          subst hst
          intro s hs
          rcases List.mem_cons.mp hs with h | h
          · omega
          · exact ih (n - 1) l (by omega) hl s h
        · simp [gateRun, gateStep, hpos] at hrun
      | call =>
        simp [gateRun, gateStep] at hrun
        obtain ⟨l, hl, hst⟩ := hrun
        subst hst
        intro s hs
        rcases List.mem_cons.mp hs with h | h
        · omega
        · exact ih n l hn hl s h
  · intro h
    cases h <;> rfl

/-- Witness for C2: three tasks against a gate of capacity 1; the recorded
holder counts of a full interleaving never exceed 1. -/
theorem gate_capacity_invariant_witness :
    gateRun 1 0 [GateEv.acq, GateEv.call, GateEv.rel, GateEv.acq, GateEv.rel] =
      some [1, 1, 0, 1, 0] ∧ (1 : Nat) ≤ 1 :=
  ⟨rfl,
   (gate_capacity_invariant 1).1 0
     [GateEv.acq, GateEv.call, GateEv.rel, GateEv.acq, GateEv.rel]
     [1, 1, 0, 1, 0] (by decide) rfl 1 (by decide)⟩

/-! ### Claims C8 and C9: empty task lists short-circuit -/

/-- C8: an authenticated batch request with an empty task list returns the
zero-totals response on all three endpoints, with zero upstream calls and
zero gate acquisitions. -/
theorem empty_batch_short_circuit (cfg : AuthConfig) (reg : Registry)
    (hdr : Option (List Char)) (ext : Option (List Char))
    (creds : Option GeminiCredentials) (chatOracle : Nat → ChatOutcome)
    (oracle : Nat → Nat → UpstreamResp) (exnOracle : Nat → Option (List Char))
    (hauth : (get_api_key_from_request cfg hdr creds).2.1 = none) :
    chat_batch cfg reg hdr ⟨[], ext, creds⟩ chatOracle =
      .ok (emptyBatchResponse, 0, 0) ∧
    structured_output_batch cfg reg hdr ⟨[], ext, creds⟩ oracle exnOracle =
      .ok (emptyBatchResponse, 0, 0) ∧
    cinematic_story_batch cfg reg hdr ⟨[], ext, creds⟩ oracle exnOracle =
      .ok (emptyBatchResponse, 0, 0) := by
  rcases hk : get_api_key_from_request cfg hdr creds with ⟨k, em, sc⟩
  rw [hk] at hauth
  simp at hauth
  subst hauth
  refine ⟨?_, ?_, ?_⟩ <;> simp [chat_batch, structured_output_batch, cinematic_story_batch, hk]

/-- Witness for C8 at a concrete authenticated request. -/
theorem empty_batch_short_circuit_witness :
    chat_batch ⟨some ['a'], some ['s']⟩ [] (some ['a']) ⟨[], none, none⟩
      (fun _ => ChatOutcome.ok ['t']) = .ok (emptyBatchResponse, 0, 0) :=
  (empty_batch_short_circuit ⟨some ['a'], some ['s']⟩ [] (some ['a']) none none
    (fun _ => ChatOutcome.ok ['t']) (fun _ _ => UpstreamResp.text ['1'])
    (fun _ => none) (by decide)).1

/-- C9: the empty-list check precedes gate resolution, so an authenticated
empty batch naming an unregistered external gate still returns the
zero-totals response instead of a 404 gate-not-found error. -/
theorem empty_batch_precedes_gate_lookup (cfg : AuthConfig) (reg : Registry)
    (hdr : Option (List Char)) (sid : List Char)
    (creds : Option GeminiCredentials) (chatOracle : Nat → ChatOutcome)
    (oracle : Nat → Nat → UpstreamResp) (exnOracle : Nat → Option (List Char))
    (hauth : (get_api_key_from_request cfg hdr creds).2.1 = none)
    (hmiss : get_global_semaphore reg sid = none) :
    chat_batch cfg reg hdr ⟨[], some sid, creds⟩ chatOracle =
      .ok (emptyBatchResponse, 0, 0) ∧
    structured_output_batch cfg reg hdr ⟨[], some sid, creds⟩ oracle exnOracle =
      .ok (emptyBatchResponse, 0, 0) ∧
    cinematic_story_batch cfg reg hdr ⟨[], some sid, creds⟩ oracle exnOracle =
      .ok (emptyBatchResponse, 0, 0) := by
  rcases hk : get_api_key_from_request cfg hdr creds with ⟨k, em, sc⟩
  rw [hk] at hauth
  simp at hauth
  subst hauth
  refine ⟨?_, ?_, ?_⟩ <;> simp [chat_batch, structured_output_batch, cinematic_story_batch, hk]

/-- Witness for C9: gate id `g` is not registered, yet the empty batch
returns zero totals rather than a 404. -/
theorem empty_batch_precedes_gate_lookup_witness :
    get_global_semaphore [] ['g'] = none ∧
    chat_batch ⟨some ['a'], some ['s']⟩ [] (some ['a']) ⟨[], some ['g'], none⟩
      (fun _ => ChatOutcome.ok ['t']) = .ok (emptyBatchResponse, 0, 0) :=
  ⟨rfl,
   (empty_batch_precedes_gate_lookup ⟨some ['a'], some ['s']⟩ [] (some ['a']) ['g'] none
     (fun _ => ChatOutcome.ok ['t']) (fun _ _ => UpstreamResp.text ['1'])
     (fun _ => none) (by decide) rfl).1⟩

/-! ### Claim C1: batch results are a one-to-one cover of the submitted
tasks -/

theorem mapIdxFrom_length {A B : Type} (f : Nat → A → B) :
    ∀ (i : Nat) (l : List A), (mapIdxFrom f i l).length = l.length := by
  intro i l
  induction l generalizing i with
  | nil => rfl
  | cons a t ih => simp [mapIdxFrom, ih]

theorem mapIdxFrom_map_eq {A B C : Type} (f : Nat → A → B) (g : B → C) (k : A → C)
    (hf : ∀ i a, g (f i a) = k a) :
    ∀ (i : Nat) (l : List A), (mapIdxFrom f i l).map g = l.map k := by
  intro i l
  induction l generalizing i with
  | nil => rfl
  | cons a t ih => simp [mapIdxFrom, hf, ih]

theorem chat_process_task_id (k : Option (List Char)) (o : ChatOutcome) (t : TaskItem) :
    (chat_process_task k o t).task_id = t.task_id := by
  unfold chat_process_task
  cases gemini_chat_simple o k <;> rfl

theorem structured_process_task_id (k : Option (List Char)) (o : Nat → UpstreamResp)
    (e : Option (List Char)) (t : StructuredTaskItem) :
    (structured_process_task k o e t).1.task_id = t.task_id := by
  cases e <;> rfl

theorem cinematic_process_task_id (k : Option (List Char)) (o : Nat → UpstreamResp)
    (e : Option (List Char)) (t : CinematicTaskItem) :
    (cinematic_process_task k o e t).1.task_id = t.task_id := by
  cases e <;> rfl

/-- Partition invariant of `aggregate_results`: the counts add up to the
number of gathered results and the two result lists are a permutation of
the gathered results, so the multiset of reported task ids is the multiset
of gathered ids. -/
theorem aggregate_results_invariant (task_results : List TaskResult)
    (tasks_ids : List (List Char)) (ext : Bool) (sid : Option (List Char)) (total : Nat)
    (hlen : task_results.length = total)
    (hids : task_results.map (fun r => r.task_id) = tasks_ids) :
    (aggregate_results task_results ext sid total).successful_count +
      (aggregate_results task_results ext sid total).failed_count =
      (aggregate_results task_results ext sid total).total_tasks ∧
    (aggregate_results task_results ext sid total).total_tasks = total ∧
    List.Perm
      (((aggregate_results task_results ext sid total).successful_results ++
        (aggregate_results task_results ext sid total).failed_results).map
        (fun r => r.task_id)) tasks_ids := by
  have hperm : List.Perm
      (task_results.filter (fun r => r.success) ++
        task_results.filter (fun r => !r.success)) task_results :=
    List.filter_append_perm (fun r => r.success) task_results
  refine ⟨?_, rfl, ?_⟩
  · have hl := hperm.length_eq
    simp only [List.length_append] at hl
    simp [aggregate_results, hl, hlen]
  · have := hperm.map (fun r => r.task_id)
    rw [hids] at this
    simpa [aggregate_results] using this

/-- C1: on every batch endpoint, a successfully returned response for a
non-empty task list satisfies `successful_count + failed_count =
total_tasks`, reports `total_tasks` equal to the number of submitted
tasks, and the concatenation of the two result lists carries exactly the
multiset of submitted task ids — each submitted task contributes exactly
one result, none duplicated, none dropped. -/
theorem batch_partition_invariant (cfg : AuthConfig) (reg : Registry)
    (hdr : Option (List Char)) (creq : BatchChatRequest)
    (sreq : BatchStructuredRequest) (qreq : BatchCinematicRequest)
    (chatOracle : Nat → ChatOutcome) (oracle : Nat → Nat → UpstreamResp)
    (exnOracle : Nat → Option (List Char)) :
    (∀ resp u g, creq.tasks ≠ [] →
      chat_batch cfg reg hdr creq chatOracle = .ok (resp, u, g) →
      resp.successful_count + resp.failed_count = resp.total_tasks ∧
      resp.total_tasks = creq.tasks.length ∧
      List.Perm ((resp.successful_results ++ resp.failed_results).map
        (fun r => r.task_id)) (creq.tasks.map (fun t => t.task_id))) ∧
    (∀ resp u g, sreq.tasks ≠ [] →
      structured_output_batch cfg reg hdr sreq oracle exnOracle = .ok (resp, u, g) →
      resp.successful_count + resp.failed_count = resp.total_tasks ∧
      resp.total_tasks = sreq.tasks.length ∧
      List.Perm ((resp.successful_results ++ resp.failed_results).map
        (fun r => r.task_id)) (sreq.tasks.map (fun t => t.task_id))) ∧
    (∀ resp u g, qreq.tasks ≠ [] →
      cinematic_story_batch cfg reg hdr qreq oracle exnOracle = .ok (resp, u, g) →
      resp.successful_count + resp.failed_count = resp.total_tasks ∧
      resp.total_tasks = qreq.tasks.length ∧
      List.Perm ((resp.successful_results ++ resp.failed_results).map
        (fun r => r.task_id)) (qreq.tasks.map (fun t => t.task_id))) := by
  refine ⟨?_, ?_, ?_⟩
  · intro resp u g hne heq
    rcases hk : get_api_key_from_request cfg hdr creq.credentials with ⟨k, em, sc⟩
    unfold chat_batch at heq
    rw [hk] at heq
    cases em with
    | some m => simp at heq
    | none =>
      rw [List.isEmpty_eq_false.mpr hne] at heq
      rcases hg : resolve_gate reg creq.external_semaphore_id with e | ⟨ext, sid⟩ <;>
        rw [hg] at heq <;> simp at heq
      obtain ⟨hresp, _, _⟩ := heq
      subst hresp
      exact aggregate_results_invariant _ _ ext sid _ (mapIdxFrom_length _ 0 _)
        (mapIdxFrom_map_eq _ _ _ (fun i t => chat_process_task_id k (chatOracle i) t) 0 _)
  · intro resp u g hne heq
    rcases hk : get_api_key_from_request cfg hdr sreq.credentials with ⟨k, em, sc⟩
    unfold structured_output_batch at heq
    rw [hk] at heq
    cases em with
    | some m => simp at heq
    | none =>
      rw [List.isEmpty_eq_false.mpr hne] at heq
      rcases hg : resolve_gate reg sreq.external_semaphore_id with e | ⟨ext, sid⟩ <;>
        rw [hg] at heq <;> simp at heq
      obtain ⟨hresp, _, _⟩ := heq
      subst hresp
      refine aggregate_results_invariant _ _ ext sid _ ?_ ?_
      · rw [List.length_map, mapIdxFrom_length]
      · rw [List.map_map]
        exact mapIdxFrom_map_eq _ ((fun r : TaskResult => r.task_id) ∘ Prod.fst) _
          (fun i t => structured_process_task_id k (oracle i) (exnOracle i) t) 0 _
  · intro resp u g hne heq
    rcases hk : get_api_key_from_request cfg hdr qreq.credentials with ⟨k, em, sc⟩
    unfold cinematic_story_batch at heq
    rw [hk] at heq
    cases em with
    | some m => simp at heq
    | none =>
      rw [List.isEmpty_eq_false.mpr hne] at heq
      rcases hg : resolve_gate reg qreq.external_semaphore_id with e | ⟨ext, sid⟩ <;>
        rw [hg] at heq <;> simp at heq
      obtain ⟨hresp, _, _⟩ := heq
      subst hresp
      refine aggregate_results_invariant _ _ ext sid _ ?_ ?_
      · rw [List.length_map, mapIdxFrom_length]
      · rw [List.map_map]
        exact mapIdxFrom_map_eq _ ((fun r : TaskResult => r.task_id) ∘ Prod.fst) _
          (fun i t => cinematic_process_task_id k (oracle i) (exnOracle i) t) 0 _


/-! ### Claim C4: retry accounting of the structured executor -/

theorem so_loop_retry_step (oracle : Nat → UpstreamResp) (model : List Char) (k : Int)
    (i : Nat) (rest : List Nat) (hr : retryableResp (oracle i) = true)
    (hnl : ¬((i : Int) = k - 1)) :
    so_loop oracle model k (i :: rest) =
      ((so_loop oracle model k rest).1, (so_loop oracle model k rest).2 + 1) := by
  cases ho : oracle i with
  | raises e => simp [so_loop, ho, hnl]
  | text body =>
    rw [ho] at hr
    by_cases hbe : body.isEmpty
    · simp [so_loop, ho, hbe, hnl]
    · have hnone : json_loads (strip_code_fence body) = none := by
        simpa [retryableResp, hbe, Option.isNone_iff_eq_none] using hr
      simp [so_loop, ho, hbe, hnone, hnl]

theorem so_loop_last_fail (oracle : Nat → UpstreamResp) (model : List Char) (k : Int)
    (i : Nat) (rest : List Nat) (hr : retryableResp (oracle i) = true)
    (hl : (i : Int) = k - 1) :
    so_loop oracle model k (i :: rest) =
      ({ success := false, data := .null, message := lastFailMsg k (oracle i),
         retries_used := (i : Int) + 1 }, 1) := by
  cases ho : oracle i with
  | raises e => simp [so_loop, ho, hl, lastFailMsg]
  | text body =>
    rw [ho] at hr
    by_cases hbe : body.isEmpty
    · simp [so_loop, ho, hbe, hl, lastFailMsg]
    · have hnone : json_loads (strip_code_fence body) = none := by
        simpa [retryableResp, hbe, Option.isNone_iff_eq_none] using hr
      simp [so_loop, ho, hbe, hnone, hl, lastFailMsg]

theorem so_loop_success_head (oracle : Nat → UpstreamResp) (model : List Char) (k : Int)
    (i : Nat) (rest : List Nat) (d : JsonVal) (hp : parsedResp (oracle i) = some d) :
    so_loop oracle model k (i :: rest) =
      ({ success := true, data := d, message := msg_success model,
         retries_used := (i : Int) }, 1) := by
  cases ho : oracle i with
  | raises e => rw [ho] at hp; simp [parsedResp] at hp
  | text body =>
    rw [ho] at hp
    by_cases hbe : body.isEmpty
    · simp [parsedResp, hbe] at hp
    · simp only [parsedResp, hbe, if_false, Bool.false_eq_true] at hp
      simp [so_loop, ho, hbe, hp]

theorem so_loop_exhausted (oracle : Nat → UpstreamResp) (model : List Char) (k : Int) :
    ∀ (m s : Nat), 0 < m → (s : Int) + m = k →
      (∀ j, j < m → retryableResp (oracle (s + j)) = true) →
      (so_loop oracle model k (List.range' s m)).1.success = false ∧
      (so_loop oracle model k (List.range' s m)).1.retries_used = k ∧
      (so_loop oracle model k (List.range' s m)).1.message =
        lastFailMsg k (oracle (s + (m - 1))) ∧
      (so_loop oracle model k (List.range' s m)).2 = m := by
  intro m
  induction m with
  | zero => intro s h0; omega
  | succ m ih =>
    intro s h0 hk hfail
    rw [List.range'_succ]
    have hr0 : retryableResp (oracle s) = true := by simpa using hfail 0 (by omega)
    cases m with
    | zero =>
      have hlast : (s : Int) = k - 1 := by push_cast at hk; omega
      rw [so_loop_last_fail oracle model k s _ hr0 hlast]
      refine ⟨rfl, ?_, ?_, rfl⟩
      · show (s : Int) + 1 = k
        omega
      · show lastFailMsg k (oracle s) = lastFailMsg k (oracle (s + (0 + 1 - 1)))
        norm_num
    | succ m' =>
      have hnl : ¬((s : Int) = k - 1) := by push_cast at hk; omega
      rw [so_loop_retry_step oracle model k s _ hr0 hnl]
      obtain ⟨ih1, ih2, ih3, ih4⟩ := ih (s + 1) (by omega) (by push_cast at hk ⊢; omega)
        (fun j hj => by
          have h' := hfail (j + 1) (by omega)
          rw [show s + (j + 1) = s + 1 + j by omega] at h'
          exact h')
      refine ⟨ih1, ih2, ?_, ?_⟩
      · show (so_loop oracle model k (List.range' (s + 1) (m' + 1))).1.message =
          lastFailMsg k (oracle (s + (m' + 1 + 1 - 1)))
        rw [ih3, show s + 1 + (m' + 1 - 1) = s + (m' + 1 + 1 - 1) by omega]
      · show (so_loop oracle model k (List.range' (s + 1) (m' + 1))).2 + 1 = m' + 1 + 1
        rw [ih4]

theorem so_loop_succeeds (oracle : Nat → UpstreamResp) (model : List Char) (k : Int) :
    ∀ (i m s : Nat), i < m →
      (∀ j, j < i → retryableResp (oracle (s + j)) = true) →
      ∀ d, parsedResp (oracle (s + i)) = some d →
      ¬((s : Int) = k - 1) ∨ i = 0 →
      (s : Int) + m = k →
      (so_loop oracle model k (List.range' s m)).1 =
        { success := true, data := d, message := msg_success model,
          retries_used := ((s + i : Nat) : Int) } ∧
      (so_loop oracle model k (List.range' s m)).2 = i + 1 := by
  intro i
  induction i with
  | zero =>
    intro m s him _ d hp _ _
    cases m with
    | zero => omega
    | succ m' =>
      rw [List.range'_succ]
      rw [show s + 0 = s by omega] at hp
      rw [so_loop_success_head oracle model k s _ d hp]
      exact ⟨by norm_num, rfl⟩
  | succ i ih =>
    intro m s him hfail d hp _ hk
    cases m with
    | zero => omega
    | succ m' =>
      rw [List.range'_succ]
      have hr0 : retryableResp (oracle s) = true := by simpa using hfail 0 (by omega)
      have hnl : ¬((s : Int) = k - 1) := by push_cast at hk; omega
      rw [so_loop_retry_step oracle model k s _ hr0 hnl]
      obtain ⟨ih1, ih2⟩ := ih m' (s + 1) (by omega)
        (fun j hj => by
          have h' := hfail (j + 1) (by omega)
          rw [show s + (j + 1) = s + 1 + j by omega] at h'
          exact h')
        d (by rw [show s + 1 + i = s + (i + 1) by omega]; exact hp)
        (by
          by_cases hi : i = 0
          · exact Or.inr hi
          · left; push_cast at hk; omega)
        (by push_cast at hk ⊢; omega)
      refine ⟨?_, ?_⟩
      · show (so_loop oracle model k (List.range' (s + 1) m')).1 = _
        rw [ih1]
        congr 1
        push_cast
        omega
      · show (so_loop oracle model k (List.range' (s + 1) m')).2 + 1 = i + 1 + 1
        rw [ih2]

/-- C4: for `max_retries = k > 0`, a parse succeeding on zero-based attempt
`i < k` (after retryable failures on all earlier attempts) yields a success
result with `retries_used = i` after `i + 1` upstream calls; if all `k`
attempts fail retryably the executor stops after exactly `k` upstream
calls and returns a failure with `retries_used = k` carrying the failure
message of the last attempt's error kind. -/
theorem retry_executor_attempt_counts (oracle : Nat → UpstreamResp) (model : List Char)
    (api_key : Option (List Char)) (k : Int)
    (hkey : pyTruthy api_key = true) (hk : 0 < k) :
    (∀ (i : Nat) (d : JsonVal), (i : Int) < k →
      (∀ j, j < i → retryableResp (oracle j) = true) →
      parsedResp (oracle i) = some d →
      (gemini_structured_output_with_schema oracle model api_key k).1 =
        { success := true, data := d, message := msg_success model,
          retries_used := (i : Int) } ∧
      (gemini_structured_output_with_schema oracle model api_key k).2 = i + 1) ∧
    ((∀ j : Nat, (j : Int) < k → retryableResp (oracle j) = true) →
      (gemini_structured_output_with_schema oracle model api_key k).1.success = false ∧
      (gemini_structured_output_with_schema oracle model api_key k).1.retries_used = k ∧
      (gemini_structured_output_with_schema oracle model api_key k).1.message =
        lastFailMsg k (oracle (k.toNat - 1)) ∧
      (((gemini_structured_output_with_schema oracle model api_key k).2 : Nat) : Int) = k) := by
  have hunf : gemini_structured_output_with_schema oracle model api_key k =
      so_loop oracle model k (List.range' 0 k.toNat) := by
    unfold gemini_structured_output_with_schema
    rw [hkey, List.range_eq_range']
    simp
  constructor
  · intro i d hik hfail hp
    rw [hunf]
    obtain ⟨h1, h2⟩ := so_loop_succeeds oracle model k i k.toNat 0 (by omega)
      (fun j hj => by simpa using hfail j hj) d (by simpa using hp)
      (by
        rcases Nat.eq_zero_or_pos i with hi | hi
        · exact Or.inr hi
        · left; omega)
      (by omega)
    rw [show ((0 + i : Nat) : Int) = (i : Int) by omega] at h1
    exact ⟨h1, h2⟩
  · intro hall
    rw [hunf]
    obtain ⟨h1, h2, h3, h4⟩ := so_loop_exhausted oracle model k k.toNat 0 (by omega)
      (by omega) (fun j hj => by simpa using hall j (by omega))
    refine ⟨h1, h2, ?_, ?_⟩
    · rw [h3, show 0 + (k.toNat - 1) = k.toNat - 1 by omega]
    · rw [h4]
      omega

/-- Witness for C4: with `max_retries = 3`, a stub raising on attempt 0 and
parsing on attempt 1 succeeds with `retries_used = 1` after 2 calls; with
`max_retries = 2` and a stub always returning an empty body, the task fails
with `retries_used = 2` after exactly 2 calls. -/
theorem retry_executor_attempt_counts_witness :
    (gemini_structured_output_with_schema
        (fun j => if j = 0 then UpstreamResp.raises ['b']
                  else UpstreamResp.text "\x7b\x22a\x22:1\x7d".toList)
        ['m'] (some ['k']) 3).1 =
      { success := true, data := JsonVal.obj [(['a'], JsonVal.num ['1'])],
        message := msg_success ['m'], retries_used := (1 : Int) } ∧
    (gemini_structured_output_with_schema
        (fun j => if j = 0 then UpstreamResp.raises ['b']
                  else UpstreamResp.text "\x7b\x22a\x22:1\x7d".toList)
        ['m'] (some ['k']) 3).2 = 2 ∧
    (gemini_structured_output_with_schema (fun _ => UpstreamResp.text []) ['m']
        (some ['k']) 2).1.success = false ∧
    (gemini_structured_output_with_schema (fun _ => UpstreamResp.text []) ['m']
        (some ['k']) 2).1.retries_used = 2 ∧
    (gemini_structured_output_with_schema (fun _ => UpstreamResp.text []) ['m']
        (some ['k']) 2).1.message = msg_empty_response 2 := by
  have hs := (retry_executor_attempt_counts
    (fun j => if j = 0 then UpstreamResp.raises ['b']
              else UpstreamResp.text "\x7b\x22a\x22:1\x7d".toList)
    ['m'] (some ['k']) 3 (by decide) (by decide)).1 1
    (JsonVal.obj [(['a'], JsonVal.num ['1'])]) (by decide)
    (fun j hj => by
      have hj0 : j = 0 := by omega
      subst hj0
      rfl)
    rfl
  have hf := (retry_executor_attempt_counts (fun _ => UpstreamResp.text []) ['m']
    (some ['k']) 2 (by decide) (by decide)).2
    (fun j hj => rfl)
  exact ⟨hs.1, hs.2, hf.1, hf.2.1, hf.2.2.1⟩

/-- Witness for C1: a one-task chat batch under admin authentication whose
`external_semaphore_id` is the falsy empty string and whose registry is
empty — the request falls through to the global gate and returns a
response, which the theorem covers: the counts add up and the single task
id is covered exactly once. -/
theorem batch_partition_invariant_witness :
    (1 : Nat) + 0 = 1 ∧ (1 : Nat) = 1 ∧
    List.Perm
      ((([{ task_id := ['i'], success := true, data := JsonVal.str ['t'],
            output_filename := none, error := none }] : List TaskResult) ++ []).map
        (fun r : TaskResult => r.task_id))
      (([⟨['i'], ['p'], [], ['m'], none⟩] : List TaskItem).map (fun t => t.task_id)) :=
  (batch_partition_invariant ⟨some ['a'], some ['s']⟩ [] (some ['a'])
    ⟨[⟨['i'], ['p'], [], ['m'], none⟩], some [], none⟩ ⟨[], none, none⟩ ⟨[], none, none⟩
    (fun _ => ChatOutcome.ok ['t']) (fun _ _ => UpstreamResp.text ['1'])
    (fun _ => none)).1
    { total_tasks := 1, successful_count := 1, failed_count := 0,
      successful_results := [{ task_id := ['i'], success := true, data := JsonVal.str ['t'],
                               output_filename := none, error := none }],
      failed_results := [], external_semaphore_used := false, semaphore_id := none }
    1 1 (by simp) rfl

/-! ### Claim C5: success / error / data coupling of structured task
results -/

theorem so_loop_fail_data_null (oracle : Nat → UpstreamResp) (model : List Char) (k : Int) :
    ∀ l, (so_loop oracle model k l).1.success = false →
      (so_loop oracle model k l).1.data = JsonVal.null := by
  intro l
  induction l with
  | nil => intro _; rfl
  | cons i rest ih =>
    intro hs
    cases ho : oracle i with
    | raises e =>
      by_cases hl : (i : Int) = k - 1
      · simp [so_loop, ho, hl]
      · rw [so_loop_retry_step oracle model k i rest (by simp [retryableResp, ho]) hl] at hs ⊢
        exact ih hs
    | text body =>
      by_cases hbe : body.isEmpty
      · by_cases hl : (i : Int) = k - 1
        · simp [so_loop, ho, hbe, hl]
        · rw [so_loop_retry_step oracle model k i rest
            (by simp [retryableResp, ho, hbe]) hl] at hs ⊢
          exact ih hs
      · cases hj : json_loads (strip_code_fence body) with
        | some d =>
          rw [so_loop_success_head oracle model k i rest d
            (by simp [parsedResp, ho, hbe, hj])] at hs
          simp at hs
        | none =>
          by_cases hl : (i : Int) = k - 1
          · simp [so_loop, ho, hbe, hj, hl]
          · rw [so_loop_retry_step oracle model k i rest
              (by simp [retryableResp, ho, hbe, hj]) hl] at hs ⊢
            exact ih hs

theorem gemini_structured_fail_data_null (oracle : Nat → UpstreamResp) (model : List Char)
    (api_key : Option (List Char)) (k : Int)
    (h : (gemini_structured_output_with_schema oracle model api_key k).1.success = false) :
    (gemini_structured_output_with_schema oracle model api_key k).1.data = JsonVal.null := by
  unfold gemini_structured_output_with_schema at h ⊢
  cases hkey : pyTruthy api_key with
  | false => simp [hkey]
  | true =>
    rw [hkey] at h
    simp only [Bool.not_true, Bool.false_eq_true, if_false] at h ⊢
    exact so_loop_fail_data_null oracle model k _ h

/-- C5 (amended): for every structured-output task result, `success = true`
holds exactly when `error = null`, a failed task always carries `data =
null`, and a non-null `data` only occurs on success.  The remaining
direction of the original claim — `success = true` implies `data` non-null
— is refuted by `structured_task_null_payload_counterexample`: a successful
parse of the upstream payload `null` stores Python `None` in `data`. -/
theorem structured_task_result_invariants (api_key : Option (List Char))
    (oracle : Nat → UpstreamResp) (exn : Option (List Char)) (task : StructuredTaskItem) :
    ((structured_process_task api_key oracle exn task).1.success = true ↔
      (structured_process_task api_key oracle exn task).1.error = none) ∧
    ((structured_process_task api_key oracle exn task).1.success = false →
      (structured_process_task api_key oracle exn task).1.data = JsonVal.null) ∧
    ((structured_process_task api_key oracle exn task).1.data ≠ JsonVal.null →
      (structured_process_task api_key oracle exn task).1.success = true) := by
  cases exn with
  | some e => simp [structured_process_task]
  | none =>
    refine ⟨?_, ?_, ?_⟩
    · cases hrs : (gemini_structured_output_with_schema oracle task.model api_key 3).1.success <;>
        simp [structured_process_task, hrs]
    · intro hs
      have hs' : (gemini_structured_output_with_schema oracle task.model api_key 3).1.success = false := by
        simpa [structured_process_task] using hs
      simpa [structured_process_task] using
        gemini_structured_fail_data_null oracle task.model api_key 3 hs'
    · intro hd
      by_contra hs
      have hsf : (structured_process_task api_key oracle none task).1.success = false := by
        cases hbs : (structured_process_task api_key oracle none task).1.success
        · rfl
        · exact absurd hbs hs
      have hs' : (gemini_structured_output_with_schema oracle task.model api_key 3).1.success = false := by
        simpa [structured_process_task] using hsf
      exact hd (by simpa [structured_process_task] using
        gemini_structured_fail_data_null oracle task.model api_key 3 hs')

/-- Counterexample for C5 as stated: the upstream body `null` is non-empty
and parses strictly, so the task succeeds, yet `data` is the JSON value
`null` (Python `None`) — `success = true` does not imply `data != null`.
`error` is still `null`, so the claimed equivalence of all three conditions
fails at this input. -/
theorem structured_task_null_payload_counterexample :
    (structured_process_task (some ['k']) (fun _ => UpstreamResp.text "null".toList) none
        ⟨['i'], ['u'], ['s'], JsonVal.obj [], ['m'], none⟩).1.success = true ∧
    (structured_process_task (some ['k']) (fun _ => UpstreamResp.text "null".toList) none
        ⟨['i'], ['u'], ['s'], JsonVal.obj [], ['m'], none⟩).1.data = JsonVal.null ∧
    (structured_process_task (some ['k']) (fun _ => UpstreamResp.text "null".toList) none
        ⟨['i'], ['u'], ['s'], JsonVal.obj [], ['m'], none⟩).1.error = none :=
  ⟨rfl, rfl, rfl⟩

/-! ### Claim C6: fence-stripping and parse identity -/

theorem pyStrip_cons_concat (x y : Char) (l : List Char)
    (hx : pySpace x = false) (hy : pySpace y = false) :
    pyStrip (x :: (l ++ [y])) = x :: (l ++ [y]) := by
  apply pyStrip_eq_self
  · intro c hc
    simp only [List.head?_cons, Option.some.injEq] at hc
    rw [← hc]
    exact hx
  · intro c hc
    rw [show (x :: (l ++ [y])) = (x :: l) ++ [y] by simp] at hc
    rw [List.getLast?_concat] at hc
    simp only [Option.some.injEq] at hc
    rw [← hc]
    exact hy

theorem strip_tail_eq (p : List Char) :
    (if [bt, bt, bt].isSuffixOf (pyStrip ('\n' :: (p ++ '\n' :: bt :: bt :: bt :: []))) then
       pyStrip ((pyStrip ('\n' :: (p ++ '\n' :: bt :: bt :: bt :: []))).take
         ((pyStrip ('\n' :: (p ++ '\n' :: bt :: bt :: bt :: []))).length - 3))
     else pyStrip ('\n' :: (p ++ '\n' :: bt :: bt :: bt :: []))) = pyStrip p := by
  have hbt : pySpace bt = false := by decide
  have hnl : pySpace '\n' = true := by decide
  cases hq : p.dropWhile pySpace with
  | nil =>
    have hstep : ('\n' :: (p ++ '\n' :: bt :: bt :: bt :: [])).dropWhile pySpace =
        [bt, bt, bt] := by
      rw [List.dropWhile_cons]
      simp only [hnl, if_true]
      rw [dropWhile_append_eq, hq]
      simp [List.dropWhile_cons, hnl, hbt]
    have ht1 : pyStrip ('\n' :: (p ++ '\n' :: bt :: bt :: bt :: [])) = [bt, bt, bt] := by
      unfold pyStrip
      rw [hstep]
      decide
    rw [ht1]
    rw [pyStrip_nil_of_dropWhile_nil p hq]
    decide
  | cons a q' =>
    have ha : pySpace a = false := by
      have h := List.head?_dropWhile_not pySpace p
      rw [hq] at h
      simpa using h
    have hstep : ('\n' :: (p ++ '\n' :: bt :: bt :: bt :: [])).dropWhile pySpace =
        (a :: q') ++ '\n' :: bt :: bt :: bt :: [] := by
      rw [List.dropWhile_cons]
      simp only [hnl, if_true]
      rw [dropWhile_append_eq, hq]
      simp
    have hm : pyStrip ((a :: q') ++ '\n' :: bt :: bt :: bt :: []) =
        (a :: q') ++ '\n' :: bt :: bt :: bt :: [] := by
      rw [show (a :: q') ++ '\n' :: bt :: bt :: bt :: ([] : List Char) =
          a :: ((q' ++ '\n' :: bt :: bt :: []) ++ [bt]) by simp]
      exact pyStrip_cons_concat a bt _ ha hbt
    have ht1 : pyStrip ('\n' :: (p ++ '\n' :: bt :: bt :: bt :: [])) =
        (a :: q') ++ '\n' :: bt :: bt :: bt :: [] := by
      unfold pyStrip
      rw [hstep]
      unfold pyStrip at hm
      rw [dropWhile_eq_self_of_head pySpace ((a :: q') ++ '\n' :: bt :: bt :: bt :: [])
        (by
          intro c hc
          simp only [List.cons_append, List.head?_cons, Option.some.injEq] at hc
          rw [← hc]; exact ha)] at hm
      exact hm
    rw [ht1]
    have hsuf : ([bt, bt, bt].isSuffixOf ((a :: q') ++ '\n' :: bt :: bt :: bt :: [])) = true := by
      rw [show (a :: q') ++ '\n' :: bt :: bt :: bt :: ([] : List Char) =
          ((a :: q') ++ ['\n']) ++ [bt, bt, bt] by simp]
      simp [List.isSuffixOf]
    rw [hsuf]
    simp only [if_true]
    have htake : (((a :: q') ++ '\n' :: bt :: bt :: bt :: []).take
        (((a :: q') ++ '\n' :: bt :: bt :: bt :: []).length - 3)) = (a :: q') ++ ['\n'] := by
      rw [show (a :: q') ++ '\n' :: bt :: bt :: bt :: ([] : List Char) =
          ((a :: q') ++ ['\n']) ++ [bt, bt, bt] by simp]
      rw [show (((a :: q') ++ ['\n']) ++ [bt, bt, bt]).length - 3 =
          ((a :: q') ++ ['\n']).length by simp]
      exact List.take_left _ _
    rw [htake]
    unfold pyStrip
    rw [hq]
    rw [show ((a :: q') ++ ['\n'] : List Char) = a :: (q' ++ ['\n']) by simp]
    rw [dropWhile_eq_self_of_head pySpace (a :: (q' ++ ['\n']))
      (by
        intro c hc
        simp only [List.head?_cons, Option.some.injEq] at hc
        rw [← hc]; exact ha)]
    rw [show (a :: (q' ++ ['\n'])).reverse = '\n' :: (a :: q').reverse by simp]
    rw [List.dropWhile_cons]
    simp [hnl]

theorem strip_json_fence (p : List Char) :
    strip_code_fence ("```json\n".toList ++ p ++ "\n```".toList) = pyStrip p := by
  have hbt : pySpace bt = false := by decide
  have hA : "```json\n".toList = bt :: bt :: bt :: 'j' :: 's' :: 'o' :: 'n' :: '\n' :: [] := by
    decide
  have hB : "\n```".toList = '\n' :: bt :: bt :: bt :: [] := by decide
  rw [hA, hB]
  rw [show ((bt :: bt :: bt :: 'j' :: 's' :: 'o' :: 'n' :: '\n' :: []) ++ p ++
      ('\n' :: bt :: bt :: bt :: []) : List Char) =
      bt :: bt :: bt :: 'j' :: 's' :: 'o' :: 'n' :: '\n' :: (p ++ '\n' :: bt :: bt :: bt :: [])
      by simp]
  have hps : pyStrip (bt :: bt :: bt :: 'j' :: 's' :: 'o' :: 'n' :: '\n' ::
      (p ++ '\n' :: bt :: bt :: bt :: [])) =
      bt :: bt :: bt :: 'j' :: 's' :: 'o' :: 'n' :: '\n' ::
      (p ++ '\n' :: bt :: bt :: bt :: []) := by
    rw [show (bt :: bt :: bt :: 'j' :: 's' :: 'o' :: 'n' :: '\n' ::
        (p ++ '\n' :: bt :: bt :: bt :: []) : List Char) =
        bt :: ((bt :: bt :: 'j' :: 's' :: 'o' :: 'n' :: '\n' ::
          (p ++ '\n' :: bt :: bt :: [])) ++ [bt]) by simp]
    exact pyStrip_cons_concat bt bt _ hbt hbt
  simp only [strip_code_fence]
  rw [hps]
  have hpre : ([bt, bt, bt, 'j', 's', 'o', 'n'].isPrefixOf
      (bt :: bt :: bt :: 'j' :: 's' :: 'o' :: 'n' :: '\n' ::
        (p ++ '\n' :: bt :: bt :: bt :: []))) = true := by
    simp [List.isPrefixOf]
  rw [hpre, if_pos rfl]
  rw [show (bt :: bt :: bt :: 'j' :: 's' :: 'o' :: 'n' :: '\n' ::
      (p ++ '\n' :: bt :: bt :: bt :: [])).drop 7 =
      '\n' :: (p ++ '\n' :: bt :: bt :: bt :: []) from rfl]
  exact strip_tail_eq p

theorem strip_bare_fence (p : List Char) :
    strip_code_fence ("```\n".toList ++ p ++ "\n```".toList) = pyStrip p := by
  have hbt : pySpace bt = false := by decide
  have hA : "```\n".toList = bt :: bt :: bt :: '\n' :: [] := by decide
  have hB : "\n```".toList = '\n' :: bt :: bt :: bt :: [] := by decide
  rw [hA, hB]
  rw [show ((bt :: bt :: bt :: '\n' :: []) ++ p ++ ('\n' :: bt :: bt :: bt :: []) : List Char) =
      bt :: bt :: bt :: '\n' :: (p ++ '\n' :: bt :: bt :: bt :: []) by simp]
  have hps : pyStrip (bt :: bt :: bt :: '\n' :: (p ++ '\n' :: bt :: bt :: bt :: [])) =
      bt :: bt :: bt :: '\n' :: (p ++ '\n' :: bt :: bt :: bt :: []) := by
    rw [show (bt :: bt :: bt :: '\n' :: (p ++ '\n' :: bt :: bt :: bt :: []) : List Char) =
        bt :: ((bt :: bt :: '\n' :: (p ++ '\n' :: bt :: bt :: [])) ++ [bt]) by simp]
    exact pyStrip_cons_concat bt bt _ hbt hbt
  simp only [strip_code_fence]
  rw [hps]
  have hjn : ('j' == '\n') = false := by decide
  have hpre1 : ([bt, bt, bt, 'j', 's', 'o', 'n'].isPrefixOf
      (bt :: bt :: bt :: '\n' :: (p ++ '\n' :: bt :: bt :: bt :: []))) = false := by
    simp [List.isPrefixOf, hjn]
  have hpre2 : ([bt, bt, bt].isPrefixOf
      (bt :: bt :: bt :: '\n' :: (p ++ '\n' :: bt :: bt :: bt :: []))) = true := by
    simp [List.isPrefixOf]
  rw [hpre1]
  simp only [Bool.false_eq_true, if_false]
  rw [hpre2, if_pos rfl]
  rw [show (bt :: bt :: bt :: '\n' :: (p ++ '\n' :: bt :: bt :: bt :: [])).drop 3 =
      '\n' :: (p ++ '\n' :: bt :: bt :: bt :: []) from rfl]
  exact strip_tail_eq p

theorem strip_no_fence (p : List Char)
    (hp : ([bt, bt, bt].isPrefixOf (pyStrip p)) = false) :
    strip_code_fence p = pyStrip p := by
  have hp7 : ([bt, bt, bt, 'j', 's', 'o', 'n'].isPrefixOf (pyStrip p)) = false := by
    by_contra h
    rw [Bool.not_eq_false, List.isPrefixOf_iff_prefix] at h
    have h3 : [bt, bt, bt] <+: pyStrip p :=
      List.IsPrefix.trans ⟨['j', 's', 'o', 'n'], rfl⟩ h
    rw [← List.isPrefixOf_iff_prefix, hp] at h3
    exact Bool.false_ne_true h3
  simp only [strip_code_fence, hp7, hp, Bool.false_eq_true, if_false]

/-- C6 (amended): fence-stripping removes the triple-backtick fences when
the language tag is exactly `json` or absent — for every payload whose
stripped text does not itself begin with a fence, both fenced forms are
reduced to exactly the stripped bare payload, and therefore parse to the
same value as the bare payload; stripping is what the executor applies
before parsing.  Other language tags are not removed (see
`strip_code_fence_tag_counterexample`), which refutes the original claim's
"any language tag". -/
theorem fence_stripping_parse_identical (p : List Char)
    (hp : ([bt, bt, bt].isPrefixOf (pyStrip p)) = false) :
    strip_code_fence ("```json\n".toList ++ p ++ "\n```".toList) = strip_code_fence p ∧
    strip_code_fence ("```\n".toList ++ p ++ "\n```".toList) = strip_code_fence p ∧
    json_loads (strip_code_fence ("```json\n".toList ++ p ++ "\n```".toList)) =
      json_loads (strip_code_fence p) ∧
    json_loads (strip_code_fence ("```\n".toList ++ p ++ "\n```".toList)) =
      json_loads (strip_code_fence p) := by
  rw [strip_json_fence p, strip_bare_fence p, strip_no_fence p hp]
  exact ⟨rfl, rfl, rfl, rfl⟩

/-- Witness for C6: the spec's own example — the `json`-fenced object body
parses identically to the bare body. -/
theorem fence_stripping_parse_identical_witness :
    ([bt, bt, bt].isPrefixOf (pyStrip "\x7b\x22a\x22:1\x7d".toList)) = false ∧
    json_loads (strip_code_fence
      ("```json\n".toList ++ "\x7b\x22a\x22:1\x7d".toList ++ "\n```".toList)) =
      json_loads (strip_code_fence "\x7b\x22a\x22:1\x7d".toList) :=
  ⟨by decide, (fence_stripping_parse_identical "\x7b\x22a\x22:1\x7d".toList (by decide)).2.2.1⟩

/-- Counterexample for C6 as stated: a fenced JSON payload with the
language tag `python` keeps the tag after stripping, fails strict JSON
parsing, and so does not parse identically to the bare payload, which
parses. -/
theorem strip_code_fence_tag_counterexample :
    strip_code_fence "```python\n\x7b\x22a\x22:1\x7d\n```".toList =
      "python\n\x7b\x22a\x22:1\x7d".toList ∧
    json_loads (strip_code_fence "```python\n\x7b\x22a\x22:1\x7d\n```".toList) = none ∧
    json_loads (strip_code_fence "\x7b\x22a\x22:1\x7d".toList) =
      some (JsonVal.obj [(['a'], JsonVal.num ['1'])]) :=
  ⟨rfl, rfl, rfl⟩
